import Mathlib

/-!
Verification development for the RunAll_Resource control-plane service.

The Go source is shallowly embedded as pure Lean functions over an explicit
system state (`SysState`): the PostgreSQL tables become lists of rows, the
Kubernetes cluster becomes lists of named objects, and every repository or
use-case function is translated into a function
`SysState → ... → Except Err α × SysState × List Op`, where the `List Op`
component records, in order, the cluster API calls issued and the store
writes committed by the call.  Outcomes of external requests that cannot be
derived from the modelled state (a failing database insert, a failing
update of the ingress-nginx load-balancer service, the load-balancer IP
lookup) are supplied by an `Env` record, standing for the response of the
external system.
-/

/-- Error values.  `Err.k code reason message` embeds a kratos
`errors.New(code, reason, message)`; `Err.s message` embeds a plain Go
error (`errors.New` / `fmt.Errorf`); `Err.instanceAlreadyExists` is the
sentinel `biz.ErrInstanceAlreadyExists`. -/
inductive Err where
  | k (code : Nat) (reason message : String)
  | s (message : String)
  | instanceAlreadyExists
deriving DecidableEq, Repr

/-- The message a Go caller sees through `err.Error()`. -/
def Err.message' : Err → String
  | .k _ _ m => m
  | .s m => m
  | .instanceAlreadyExists => "instance already exists"

/-- Trace entries: cluster API calls issued (whether or not they succeed)
and store writes committed. -/
inductive Op where
  | createDeployment (ns name : String)
  | createService (ns name : String)
  | deleteService (ns name : String)
  | addConfigMapEntry (protocol : String) (port : Nat)
  | removeConfigMapEntry (protocol : String) (port : Nat)
  | addLBPort (protocol : String) (port : Nat)
  | removeLBPort (protocol : String) (port : Nat)
  | createIngress (ns name : String)
  | deleteIngress (ns name : String)
  | insertInstance (id : Int)
  | insertSpec (id : Int)
  | insertBinding (id : Int) (port : Nat)
  | deleteBinding (id : Int) (port : Nat)
  | appendAudit (id : Int) (logType : String)
deriving DecidableEq, Repr

/-- `biz.InstanceSpec` (part_007 lines 37-46). -/
structure InstanceSpecB where
  instanceID : Int
  userID : String
  name : String
  cpu : Nat
  memory : Nat
  gpu : Nat
  image : String
  configJSON : String
deriving DecidableEq, Repr

/-- A row of the `instance` table (data/resource.go lines 165-175). -/
structure InstanceRow where
  instanceID : Int
  userID : String
  name : String
  status : String
deriving DecidableEq, Repr

/-- A row of the `instance_spec` table (data/resource.go lines 178-187);
the `gpu` column is nullable (`*uint32`). -/
structure InstanceSpecRow where
  instanceID : Int
  cpu : Nat
  memory : Nat
  gpu : Option Nat
  image : String
  configJSON : String
deriving DecidableEq, Repr

/-- A row of the `instance_logs` table (data/audit.go lines 26-35). -/
structure AuditRow where
  instanceID : Int
  logType : String
  message : String
deriving DecidableEq, Repr

/-- `biz.NetworkBinding` / a row of the `instance_network` table
(part_007 lines 140-152, part_004 lines 31-45). -/
structure NetworkBinding where
  instanceID : Int
  port : Nat
  serviceName : String
  servicePort : Nat
  externalPort : Option Nat
  ingressName : Option String
  protocol : String
  accessURL : String
  enabled : Bool
deriving DecidableEq, Repr

/-- CPU/memory/GPU requests of the single container of the workload
(k8sInstance.go lines 139-162). -/
structure ResourceListK where
  cpuMilli : Int
  memBytes : Int
  gpu : Option Int
deriving DecidableEq, Repr

/-- A Deployment object as created by `k8sRepo.CreateInstance`
(k8sInstance.go lines 172-205). -/
structure DeploymentObj where
  ns : String
  name : String
  containerName : String
  image : String
  resources : ResourceListK
  nodeSelector : Option (String × String)
deriving DecidableEq, Repr

/-- The whole system: store tables plus cluster objects plus the
process-local external-port counter of `k8sRepo`. -/
structure SysState where
  instances : List InstanceRow
  specs : List InstanceSpecRow
  audits : List AuditRow
  bindings : List NetworkBinding
  namespaces : List String
  deployments : List DeploymentObj
  services : List (String × String)
  ingresses : List (String × String)
  tcpServices : List (Nat × String)
  udpServices : List (Nat × String)
  lbPorts : List (String × Nat)
  nextAvailablePort : Nat
  tcpUDPPortRangeEnd : Nat
deriving DecidableEq, Repr

/-- Outcomes of external requests that are not a function of the modelled
state: database insert of a network binding, the two ingress-nginx
read-modify-write updates, and the load-balancer address lookup. -/
structure Env where
  bindingCreateFails : Bool
  cmPatchFails : Bool
  lbPatchFails : Bool
  lbIP : Option String
deriving DecidableEq, Repr

/-- `generateServiceName` (k8sInstance.go lines 463-465). -/
def generateServiceName (instanceID : String) (port : Nat) : String :=
  "instance-" ++ instanceID ++ "-" ++ toString port

/-- `generateIngressName` (k8sInstance.go lines 469-471). -/
def generateIngressName (instanceID : String) (port : Nat) : String :=
  "ingress-" ++ instanceID ++ "-" ++ toString port

/-- `generateAccessURL` (k8sInstance.go lines 475-477). -/
def generateAccessURL (ingressDomain ns instanceID : String) (port : Nat) : String :=
  "http://" ++ ingressDomain ++ "/" ++ ns ++ "/" ++ instanceID ++ "/" ++ toString port

/-- `gpuTypeMap` (k8sInstance.go lines 28-36): catalog entry to
(per-pod count, accelerator label value). -/
def gpuTypeMap (g : Nat) : Option (Nat × String) :=
  match g with
  | 0 => some (0, "")
  | 1 => some (1, "nvidia-tesla-v100")
  | 2 => some (1, "nvidia-tesla-a100")
  | 3 => some (1, "nvidia-tesla-h100")
  | 4 => some (1, "nvidia-tesla-t4")
  | 5 => some (1, "nvidia-geforce-rtx3090")
  | 6 => some (1, "nvidia-geforce-rtx4060m")
  | _ => none

/-- `ensureNamespace` (k8sInstance.go lines 99-127): get, create if
missing; in the model both cluster calls succeed. -/
def ensureNamespaceState (st : SysState) (ns : String) : SysState :=
  if st.namespaces.contains ns then st
  else { st with namespaces := st.namespaces ++ [ns] }

/-- The Deployment built by `k8sRepo.CreateInstance`
(k8sInstance.go lines 139-205): millicores `cpu*1000` with fallback 1000,
bytes `memory*1024*1024` with fallback `512*1024*1024`, a GPU request and
an `accelerator` node selector when the catalog entry is non-zero, and a
container named after the stringified instance ID. -/
def makeDeployment (spec : InstanceSpecB) : DeploymentObj :=
  let cpuMilli0 : Int := Int.ofNat spec.cpu * 1000
  let memBytes0 : Int := Int.ofNat spec.memory * 1024 * 1024
  let cpuMilli : Int := if cpuMilli0 ≤ 0 then 1000 else cpuMilli0
  let memBytes : Int := if memBytes0 ≤ 0 then 512 * 1024 * 1024 else memBytes0
  let gpuSel : Option Int × Option (String × String) :=
    if spec.gpu > 0 then
      match gpuTypeMap spec.gpu with
      | some (nums, name) =>
          (some (Int.ofNat nums), if name ≠ "" then some ("accelerator", name) else none)
      | none => (none, none)
    else (none, none)
  let nameStr := toString spec.instanceID
  { ns := spec.userID
    name := nameStr
    containerName := nameStr
    image := spec.image
    resources := { cpuMilli := cpuMilli, memBytes := memBytes, gpu := gpuSel.1 }
    nodeSelector := gpuSel.2 }

/-- `k8sRepo.CreateInstance` (k8sInstance.go lines 129-217): ensure the
namespace, then create the Deployment; creating an already existing
Deployment is an error (AlreadyExists is not caught here). -/
def k8sRepoCreateInstance (st : SysState) (spec : InstanceSpecB) :
    Except Err Unit × SysState × List Op :=
  let st1 := ensureNamespaceState st spec.userID
  let dep := makeDeployment spec
  if st1.deployments.any (fun d => d.ns == dep.ns && d.name == dep.name) then
    (Except.error (Err.s "k8s create failed: already exists"), st1,
      [Op.createDeployment dep.ns dep.name])
  else
    (Except.ok (), { st1 with deployments := st1.deployments ++ [dep] },
      [Op.createDeployment dep.ns dep.name])

/-- `resourceRepo.CreateInstance` (data/resource.go lines 259-297): one
transaction inserting the `instance` row (status CREATING) and the
`instance_spec` row; a unique-key violation on either insert rolls the
transaction back and surfaces `biz.ErrInstanceAlreadyExists`.  The
`instance_spec` row is built without its GPU value (lines 260-266), so the
`gpu` column stays null. -/
def resourceRepoCreateInstance (st : SysState) (spec : InstanceSpecB) :
    Except Err Unit × SysState × List Op :=
  if st.instances.any (fun r => r.instanceID == spec.instanceID) then
    (Except.error Err.instanceAlreadyExists, st, [])
  else if st.specs.any (fun r => r.instanceID == spec.instanceID) then
    (Except.error Err.instanceAlreadyExists, st, [])
  else
    (Except.ok (),
      { st with
        instances := st.instances ++
          [{ instanceID := spec.instanceID, userID := spec.userID,
             name := spec.name, status := "CREATING" }],
        specs := st.specs ++
          [{ instanceID := spec.instanceID, cpu := spec.cpu, memory := spec.memory,
             gpu := none, image := spec.image, configJSON := spec.configJSON }] },
      [Op.insertInstance spec.instanceID, Op.insertSpec spec.instanceID])

/-- `resourceRepo.ListResourceSpecs` (data/resource.go lines 227-256):
rows whose id is in the request, with a null `gpu` column read back as 0
and the user/name fields left at their zero values. -/
def resourceRepoListResourceSpecs (st : SysState) (instanceIDs : List Int) :
    List (Int × InstanceSpecB) :=
  if instanceIDs.isEmpty then []
  else
    (st.specs.filter (fun r => instanceIDs.contains r.instanceID)).map
      (fun r =>
        (r.instanceID,
          { instanceID := r.instanceID, userID := "", name := "",
            cpu := r.cpu, memory := r.memory, gpu := r.gpu.getD 0,
            image := r.image, configJSON := r.configJSON }))

/-- `auditRepo.CreateAudit` (data/audit.go lines 38-55): append a row to
`instance_logs`. -/
def auditRepoCreateAudit (st : SysState) (row : AuditRow) :
    Except Err Unit × SysState × List Op :=
  (Except.ok (), { st with audits := st.audits ++ [row] },
    [Op.appendAudit row.instanceID row.logType])

/-- `ResourceUsecase.CreateInstance` (part_007 lines 175-200): store
insert; `ErrInstanceAlreadyExists` is absorbed as success; otherwise
cluster workload creation, then a `CREATE` audit record. -/
def ucCreateInstance (st : SysState) (spec : InstanceSpecB) :
    Except Err Unit × SysState × List Op :=
  match resourceRepoCreateInstance st spec with
  | (Except.error Err.instanceAlreadyExists, st1, t1) => (Except.ok (), st1, t1)
  | (Except.error e, st1, t1) => (Except.error e, st1, t1)
  | (Except.ok _, st1, t1) =>
    match k8sRepoCreateInstance st1 spec with
    | (Except.error e, st2, t2) => (Except.error e, st2, t1 ++ t2)
    | (Except.ok _, st2, t2) =>
      match auditRepoCreateAudit st2
          { instanceID := spec.instanceID, logType := "CREATE",
            message := "Instance created" } with
      | (Except.error e, st3, t3) => (Except.error e, st3, t1 ++ t2 ++ t3)
      | (Except.ok _, st3, t3) => (Except.ok (), st3, t1 ++ t2 ++ t3)

/-- Number of `instance` rows carrying the given id. -/
def instanceRowCount (st : SysState) (id : Int) : Nat :=
  (st.instances.filter (fun r => r.instanceID == id)).length

/-- Number of `instance_spec` rows carrying the given id. -/
def specRowCount (st : SysState) (id : Int) : Nat :=
  (st.specs.filter (fun r => r.instanceID == id)).length

/-- Number of `CREATE` audit records carrying the given id. -/
def createAuditCount (st : SysState) (id : Int) : Nat :=
  (st.audits.filter (fun a => a.instanceID == id && a.logType == "CREATE")).length

/-- `networkRepo.GetNetworkBinding` (part_004 lines 118-145): the row
keyed by `(instance_id, port)`, or nothing. -/
def getNetworkBinding (st : SysState) (instanceID : Int) (port : Nat) :
    Option NetworkBinding :=
  st.bindings.find? (fun b => b.instanceID == instanceID && b.port == port)

/-- `networkRepo.CreateNetworkBinding` (part_004 lines 48-67): a plain
insert; it fails on a duplicate composite primary key or when the
database rejects the write (`env.bindingCreateFails`). -/
def createNetworkBinding (env : Env) (st : SysState) (b : NetworkBinding) :
    Except Err Unit × SysState × List Op :=
  if env.bindingCreateFails || (getNetworkBinding st b.instanceID b.port).isSome then
    (Except.error (Err.s "failed to create network binding"), st, [])
  else
    (Except.ok (), { st with bindings := st.bindings ++ [b] },
      [Op.insertBinding b.instanceID b.port])

/-- `networkRepo.DeleteNetworkBinding` (part_004 lines 100-115): physical
delete; zero rows affected is `ErrRecordNotFound`. -/
def deleteNetworkBinding (st : SysState) (instanceID : Int) (port : Nat) :
    Except Err Unit × SysState × List Op :=
  if (getNetworkBinding st instanceID port).isSome then
    (Except.ok (),
      { st with bindings :=
          st.bindings.filter (fun b => !(b.instanceID == instanceID && b.port == port)) },
      [Op.deleteBinding instanceID port])
  else
    (Except.error (Err.s "record not found"), st, [])

/-- `resourceRepo.GetResource` read model (data/resource.go lines
300-320, part_007 lines 202-210). -/
structure Resource where
  instanceID : Int
  name : String
  userID : String
  typ : String
deriving DecidableEq, Repr

/-- `resourceRepo.GetResource` (data/resource.go lines 300-320): first
`instance` row with the id, or nothing when the record is not found. -/
def getResource (st : SysState) (instanceID : Int) : Option Resource :=
  match st.instances.find? (fun r => r.instanceID == instanceID) with
  | none => none
  | some row =>
      some { instanceID := row.instanceID, name := row.name,
             userID := row.userID, typ := row.status }

/-- `k8sRepo.DeleteService` (k8sInstance.go lines 350-366): delete is
idempotent — a missing service succeeds. -/
def k8sDeleteService (st : SysState) (ns serviceName : String) :
    Except Err Unit × SysState × List Op :=
  (Except.ok (),
    { st with services := st.services.filter (fun x => !(x.1 == ns && x.2 == serviceName)) },
    [Op.deleteService ns serviceName])

/-- `k8sRepo.DeleteIngress` (k8sInstance.go lines 439-455): delete is
idempotent — a missing ingress succeeds. -/
def k8sDeleteIngress (st : SysState) (ns ingressName : String) :
    Except Err Unit × SysState × List Op :=
  (Except.ok (),
    { st with ingresses := st.ingresses.filter (fun x => !(x.1 == ns && x.2 == ingressName)) },
    [Op.deleteIngress ns ingressName])

/-- Entries of the protocol's ingress-nginx configuration map. -/
def cmEntries (st : SysState) (protocol : String) : List (Nat × String) :=
  if protocol == "TCP" then st.tcpServices else st.udpServices

/-- Write back the protocol's ingress-nginx configuration map. -/
def setCmEntries (st : SysState) (protocol : String) (entries : List (Nat × String)) :
    SysState :=
  if protocol == "TCP" then { st with tcpServices := entries }
  else { st with udpServices := entries }

/-- `k8sRepo.DeleteTCPUDPConfigMapEntry` (k8sInstance.go lines 599-644):
remove the external-port key from the protocol's configuration map, then
remove the matching load-balancer port, ignoring a failure of the
latter. -/
def deleteTCPUDPConfigMapEntry (st : SysState) (protocol : String) (externalPort : Nat) :
    Except Err Unit × SysState × List Op :=
  if protocol == "TCP" || protocol == "UDP" then
    let st1 := setCmEntries st protocol
      ((cmEntries st protocol).filter (fun e => !(e.1 == externalPort)))
    let st2 := { st1 with
      lbPorts := st1.lbPorts.filter (fun p => !(p.1 == protocol && p.2 == externalPort)) }
    (Except.ok (), st2,
      [Op.removeConfigMapEntry protocol externalPort, Op.removeLBPort protocol externalPort])
  else
    (Except.error (Err.s ("invalid protocol " ++ protocol ++ ", must be TCP or UDP")), st, [])

/-- `k8sRepo.allocateExternalPort` (k8sInstance.go lines 514-522):
monotone counter bounded by the configured range end; 0 signals
exhaustion. -/
def allocateExternalPort (st : SysState) : Nat × SysState :=
  if st.nextAvailablePort > st.tcpUDPPortRangeEnd then (0, st)
  else (st.nextAvailablePort, { st with nextAvailablePort := st.nextAvailablePort + 1 })

/-- `k8sRepo.CreateServiceForTCPUDP` (k8sInstance.go lines 221-303):
create the cluster-internal service, allocate an external port, patch the
protocol's configuration map, patch the load-balancer service; each later
failure rolls back the earlier sub-steps as written in the source. -/
def createServiceForTCPUDP (env : Env) (st : SysState) (ns instanceID : String)
    (port : Nat) (protocol : String) :
    Except Err (String × Nat) × SysState × List Op :=
  if protocol == "TCP" || protocol == "UDP" then
    let serviceName := generateServiceName instanceID port
    if st.services.any (fun x => x.1 == ns && x.2 == serviceName) then
      (Except.error (Err.s "failed to create service"), st, [Op.createService ns serviceName])
    else
      let st1 := { st with services := st.services ++ [(ns, serviceName)] }
      let alloc := allocateExternalPort st1
      if alloc.1 == 0 then
        (Except.error (Err.s "external port pool exhausted"),
          { alloc.2 with services :=
              alloc.2.services.filter (fun x => !(x.1 == ns && x.2 == serviceName)) },
          [Op.createService ns serviceName, Op.deleteService ns serviceName])
      else
        let externalPort := alloc.1
        let st2 := alloc.2
        if env.cmPatchFails then
          (Except.error (Err.s "failed to patch ConfigMap"),
            { st2 with services :=
                st2.services.filter (fun x => !(x.1 == ns && x.2 == serviceName)) },
            [Op.createService ns serviceName, Op.addConfigMapEntry protocol externalPort,
             Op.deleteService ns serviceName])
        else
          let cmValue := ns ++ "/" ++ serviceName ++ ":" ++ toString port
          let st3 := setCmEntries st2 protocol
            ((cmEntries st2 protocol).filter (fun e => !(e.1 == externalPort)) ++
              [(externalPort, cmValue)])
          if env.lbPatchFails then
            match deleteTCPUDPConfigMapEntry st3 protocol externalPort with
            | (_, st4, t4) =>
              (Except.error (Err.s "failed to patch ingress-nginx Service"),
                { st4 with services :=
                    st4.services.filter (fun x => !(x.1 == ns && x.2 == serviceName)) },
                [Op.createService ns serviceName, Op.addConfigMapEntry protocol externalPort,
                 Op.addLBPort protocol externalPort] ++ t4 ++ [Op.deleteService ns serviceName])
          else
            let st4 :=
              if st3.lbPorts.any (fun p => p.1 == protocol && p.2 == externalPort) then st3
              else { st3 with lbPorts := st3.lbPorts ++ [(protocol, externalPort)] }
            (Except.ok (serviceName, externalPort), st4,
              [Op.createService ns serviceName, Op.addConfigMapEntry protocol externalPort,
               Op.addLBPort protocol externalPort])
  else
    (Except.error (Err.s ("invalid protocol " ++ protocol ++ ", must be TCP or UDP")), st, [])

/-- `k8sRepo.CreateServiceForHTTP` (k8sInstance.go lines 307-346). -/
def createServiceForHTTP (st : SysState) (ns instanceID : String) (port : Nat) :
    Except Err String × SysState × List Op :=
  let serviceName := generateServiceName instanceID port
  if st.services.any (fun x => x.1 == ns && x.2 == serviceName) then
    (Except.error (Err.s "failed to create service"), st, [Op.createService ns serviceName])
  else
    (Except.ok serviceName, { st with services := st.services ++ [(ns, serviceName)] },
      [Op.createService ns serviceName])

/-- `k8sRepo.CreateIngress` (k8sInstance.go lines 374-435). -/
def k8sCreateIngress (st : SysState) (ns instanceID : String) (port : Nat)
    (serviceName ingressDomain : String) :
    Except Err (String × String) × SysState × List Op :=
  let ingressName := generateIngressName instanceID port
  let accessURL := generateAccessURL ingressDomain ns instanceID port
  if st.ingresses.any (fun x => x.1 == ns && x.2 == ingressName) then
    (Except.error (Err.s "failed to create ingress"), st, [Op.createIngress ns ingressName])
  else
    (Except.ok (ingressName, accessURL),
      { st with ingresses := st.ingresses ++ [(ns, ingressName)] },
      [Op.createIngress ns ingressName])

/-- The persist-and-audit tail of `ResourceUsecase.openPort`
(part_007 lines 320-355): persist the binding, rolling the cluster
objects back when the store write fails, then audit `PORT_OPENED`. -/
def openPortPersist (env : Env) (st : SysState) (tr : List Op) (instanceID : Int)
    (ns : String) (port : Nat) (protocol serviceName : String)
    (externalPort : Option Nat) (ingressName : Option String) (accessURL : String) :
    Except Err String × SysState × List Op :=
  let binding : NetworkBinding :=
    { instanceID := instanceID, port := port, serviceName := serviceName,
      servicePort := port, externalPort := externalPort, ingressName := ingressName,
      protocol := protocol, accessURL := accessURL, enabled := true }
  match createNetworkBinding env st binding with
  | (Except.error e, st1, t1) =>
    match k8sDeleteService st1 ns serviceName with
    | (_, st2, t2) =>
      let ingDel :=
        match ingressName with
        | some ing => k8sDeleteIngress st2 ns ing
        | none => (Except.ok (), st2, [])
      match ingDel with
      | (_, st3, t3) =>
        let cmDel :=
          match externalPort with
          | some ep => deleteTCPUDPConfigMapEntry st3 protocol ep
          | none => (Except.ok (), st3, [])
        match cmDel with
        | (_, st4, t4) => (Except.error e, st4, tr ++ t1 ++ t2 ++ t3 ++ t4)
  | (Except.ok _, st1, t1) =>
    match auditRepoCreateAudit st1
        { instanceID := instanceID, logType := "PORT_OPENED",
          message := "Port " ++ toString port ++ " opened with protocol " ++ protocol } with
    | (_, st2, t2) => (Except.ok accessURL, st2, tr ++ t1 ++ t2)

/-- The provisioning part of `ResourceUsecase.openPort`, reached when no
enabled binding exists (part_007 lines 275-355). -/
def openPortProvision (env : Env) (st : SysState) (instanceID : Int)
    (instanceIDStr ns : String) (port : Nat) (protocol ingressDomain : String) :
    Except Err String × SysState × List Op :=
  if protocol == "TCP" || protocol == "UDP" then
    match createServiceForTCPUDP env st ns instanceIDStr port protocol with
    | (Except.error e, st1, t1) => (Except.error e, st1, t1)
    | (Except.ok sp, st1, t1) =>
      let lbIP := env.lbIP.getD "<ingress-lb-ip>"
      let accessURL := lbIP ++ ":" ++ toString sp.2
      openPortPersist env st1 t1 instanceID ns port protocol sp.1 (some sp.2) none accessURL
  else if protocol == "HTTP" then
    match createServiceForHTTP st ns instanceIDStr port with
    | (Except.error e, st1, t1) => (Except.error e, st1, t1)
    | (Except.ok serviceName, st1, t1) =>
      match k8sCreateIngress st1 ns instanceIDStr port serviceName ingressDomain with
      | (Except.error e, st2, t2) =>
        match k8sDeleteService st2 ns serviceName with
        | (_, st3, t3) => (Except.error e, st3, t1 ++ t2 ++ t3)
      | (Except.ok iu, st2, t2) =>
        openPortPersist env st2 (t1 ++ t2) instanceID ns port protocol serviceName
          none (some iu.1) iu.2
  else
    (Except.error (Err.s "invalid protocol, must be TCP/UDP/HTTP"), st, [])

/-- `ResourceUsecase.openPort` (part_007 lines 264-356): idempotent when
an enabled binding exists; otherwise provision the protocol's cluster
objects, persist the binding, and audit. -/
def openPort (env : Env) (st : SysState) (instanceID : Int) (instanceIDStr ns : String)
    (port : Nat) (protocol ingressDomain : String) :
    Except Err String × SysState × List Op :=
  match getNetworkBinding st instanceID port with
  | some existing =>
    if existing.enabled then (Except.ok existing.accessURL, st, [])
    else openPortProvision env st instanceID instanceIDStr ns port protocol ingressDomain
  | none => openPortProvision env st instanceID instanceIDStr ns port protocol ingressDomain

/-- `ResourceUsecase.closePort` (part_007 lines 359-408): idempotent when
no binding exists; otherwise delete the service, the ingress when set,
the configuration-map entry when an external port is set (continuing on
errors), then the binding row, then audit `PORT_CLOSED`. -/
def closePort (st : SysState) (instanceID : Int) (ns : String) (port : Nat) :
    Except Err Unit × SysState × List Op :=
  match getNetworkBinding st instanceID port with
  | none => (Except.ok (), st, [])
  | some binding =>
    match k8sDeleteService st ns binding.serviceName with
    | (_, st1, t1) =>
      let ingDel :=
        match binding.ingressName with
        | some ing => k8sDeleteIngress st1 ns ing
        | none => (Except.ok (), st1, [])
      match ingDel with
      | (_, st2, t2) =>
        let cmDel :=
          match binding.externalPort with
          | some ep => deleteTCPUDPConfigMapEntry st2 binding.protocol ep
          | none => (Except.ok (), st2, [])
        match cmDel with
        | (_, st3, t3) =>
          match deleteNetworkBinding st3 instanceID port with
          | (Except.error e, st4, t4) => (Except.error e, st4, t1 ++ t2 ++ t3 ++ t4)
          | (Except.ok _, st4, t4) =>
            match auditRepoCreateAudit st4
                { instanceID := instanceID, logType := "PORT_CLOSED",
                  message := "Port " ++ toString port ++ " closed" } with
            | (_, st5, t5) => (Except.ok (), st5, t1 ++ t2 ++ t3 ++ t4 ++ t5)

/-- `ResourceUsecase.SetInstancePort` (part_007 lines 239-261): resolve
the instance (error when absent), derive the namespace from its user id,
then open or close the port. -/
def ucSetInstancePort (env : Env) (st : SysState) (instanceID : Int) (port : Nat)
    (protocol : String) (openB : Bool) (ingressDomain : String) :
    Except Err String × SysState × List Op :=
  match getResource st instanceID with
  | none => (Except.error (Err.s "instance not found"), st, [])
  | some resource =>
    let instanceIDStr := toString instanceID
    let ns := resource.userID
    if openB then
      openPort env st instanceID instanceIDStr ns port protocol ingressDomain
    else
      match closePort st instanceID ns port with
      | (Except.error e, st1, t1) => (Except.error e, st1, t1)
      | (Except.ok _, st1, t1) => (Except.ok "", st1, t1)

/-- One element of `port_configs` in `SetInstancePortReq`
(service/resource.go lines 204-287). -/
structure PortConfig where
  port : Nat
  protocol : String
  ingressDomain : String
deriving DecidableEq, Repr

/-- One element of the per-port result array (`v1.PortResult`). -/
structure PortResult where
  port : Nat
  success : Bool
  accessURL : String
  err : String
deriving DecidableEq, Repr

/-- `v1.SetInstancePortResp`. -/
structure SetInstancePortResp where
  success : Bool
  results : List PortResult
  message : String
deriving DecidableEq, Repr

/-- One iteration of the `SetInstancePort` loop
(service/resource.go lines 222-273): per-element port and protocol
validation, then the use-case call. -/
def processPortConfig (env : Env) (st : SysState) (instanceId : Int) (openB : Bool)
    (config : PortConfig) : PortResult × SysState × List Op :=
  if config.port == 0 || decide (config.port > 65535) then
    ({ port := config.port, success := false, accessURL := "",
       err := "invalid port number, must be 1-65535" }, st, [])
  else
    let protocol := if config.protocol == "" then "HTTP" else config.protocol
    if !(protocol == "TCP" || protocol == "UDP" || protocol == "HTTP") then
      ({ port := config.port, success := false, accessURL := "",
         err := "invalid protocol, must be TCP, UDP or HTTP" }, st, [])
    else if protocol == "HTTP" && config.ingressDomain == "" then
      ({ port := config.port, success := false, accessURL := "",
         err := "ingress_domain is required for HTTP protocol" }, st, [])
    else
      match ucSetInstancePort env st instanceId config.port protocol openB
          config.ingressDomain with
      | (Except.error e, st1, t1) =>
        ({ port := config.port, success := false, accessURL := "",
           err := e.message' }, st1, t1)
      | (Except.ok url, st1, t1) =>
        ({ port := config.port, success := true,
           accessURL := if openB then url else "", err := "" }, st1, t1)

/-- The `SetInstancePort` loop over `port_configs`
(service/resource.go lines 219-273), threading state and trace. -/
def processPortConfigs (env : Env) (st : SysState) (instanceId : Int) (openB : Bool) :
    List PortConfig → List PortResult × SysState × List Op
  | [] => ([], st, [])
  | c :: rest =>
    match processPortConfig env st instanceId openB c with
    | (r, st1, t1) =>
      match processPortConfigs env st1 instanceId openB rest with
      | (rs, st2, t2) => (r :: rs, st2, t1 ++ t2)

/-- `ResourceService.SetInstancePort` (service/resource.go lines
205-287): request validation, the per-element loop, and the aggregate
response. -/
def svcSetInstancePort (env : Env) (st : SysState) (instanceId : Int) (openB : Bool)
    (portConfigs : List PortConfig) :
    Except Err SetInstancePortResp × SysState × List Op :=
  if instanceId == 0 then
    (Except.error (Err.k 400 "INVALID_ARGUMENT" "instance_id is required"), st, [])
  else if portConfigs.isEmpty then
    (Except.error (Err.k 400 "INVALID_ARGUMENT" "port_configs is required"), st, [])
  else
    match processPortConfigs env st instanceId openB portConfigs with
    | (results, st1, t1) =>
      let successCount := (results.filter (fun r => r.success)).length
      let allSuccess := successCount == portConfigs.length
      let message :=
        if allSuccess then "success"
        else toString successCount ++ "/" ++ toString portConfigs.length ++
          " ports processed successfully"
      (Except.ok { success := allSuccess, results := results, message := message }, st1, t1)

/-- The `spec` payload of a lifecycle event (`mq.Event.Spec`). -/
structure EventSpec where
  cpus : Nat
  memoryMb : Nat
  gpu : Nat
  image : String
deriving DecidableEq, Repr

/-- A decoded `mq.Event` (the length-prefixed payload after
`proto.Unmarshal`). -/
structure MqEvent where
  eventType : String
  instanceId : Int
  userId : String
  name : String
  spec : Option EventSpec
deriving DecidableEq, Repr

/-- `ResourceService.ConsumeMqMessage` (service/resource.go lines
43-92): reject `instance_id == 0`; for `INSTANCE_CREATED` require a spec
and run the use case; other known event types are accepted as no-ops;
unknown types are rejected. -/
def consumeMqMessage (st : SysState) (event : MqEvent) :
    Except Err Unit × SysState × List Op :=
  if event.instanceId == 0 then
    (Except.error (Err.k 400 "INVALID_ARGUMENT" "invalid mq event"), st, [])
  else if event.eventType == "INSTANCE_CREATED" then
    match event.spec with
    | none =>
      (Except.error
        (Err.k 400 "INVALID_ARGUMENT" "spec is required for INSTANCE_CREATED event"), st, [])
    | some sp =>
      ucCreateInstance st
        { instanceID := event.instanceId, userID := event.userId, name := event.name,
          cpu := sp.cpus, memory := sp.memoryMb, gpu := sp.gpu, image := sp.image,
          configJSON := "" }
  else if event.eventType == "INSTANCE_DELETED"
      || event.eventType == "INSTANCE_SPEC_CHANGED"
      || event.eventType == "INSTANCE_IMAGE_REMOVED"
      || event.eventType == "INSTANCE_IMAGE_UPDATED"
      || event.eventType == "INSTANCE_STARTED"
      || event.eventType == "INSTANCE_STOPPED"
      || event.eventType == "INSTANCE_STATUS_CHANGED"
      || event.eventType == "INSTANCE_K8S_SYNC"
      || event.eventType == "INSTANCE_NETWORK_UPDATED" then
    (Except.ok (), st, [])
  else
    (Except.error (Err.k 400 "UNKNOWN_EVENT_TYPE" "unknown event type"), st, [])

/-- What the consumer handler did with a delivery: returned a value, or
panicked (the recover branch of `processMessageBody`). -/
inductive HandlerOutcome where
  | returned (r : Except Err Unit)
  | panicked
deriving Repr

/-- The acknowledgement the broker receives for a delivery. -/
inductive AckAction where
  | ack
  | rejectRequeue
  | rejectDrop
deriving DecidableEq, Repr

/-- `MQServer.processMessageBody` (part_007 lines 632-664): a recovered
panic is rejected without requeue; a returned error is rejected with
requeue; success is acknowledged. -/
def processMessageBody : HandlerOutcome → AckAction
  | .panicked => .rejectDrop
  | .returned (Except.error _) => .rejectRequeue
  | .returned (Except.ok _) => .ack

/-- `biz.ExecOutputType` (part_007 lines 128-134). -/
inductive ExecOutputType where
  | data
  | errorFrame
  | exit
deriving DecidableEq, Repr

/-- `biz.ExecOutput` (part_007 lines 120-125): a server-side frame.  The
service maps `data` to an Output frame, `errorFrame` to an Error frame
and `exit` to an Exit frame one-to-one
(service/resource.go lines 358-396). -/
structure ExecOutput where
  typ : ExecOutputType
  stream : String
  data : String
  exitCode : Int
deriving DecidableEq, Repr

/-- Shorthand for an Output frame. -/
def execDataFrame (stream data : String) : ExecOutput :=
  { typ := .data, stream := stream, data := data, exitCode := 0 }

/-- Shorthand for an Error frame. -/
def execErrorFrame (msg : String) : ExecOutput :=
  { typ := .errorFrame, stream := "", data := msg, exitCode := 0 }

/-- Shorthand for an Exit frame. -/
def execExitFrame (code : Int) : ExecOutput :=
  { typ := .exit, stream := "", data := "", exitCode := code }

/-- `biz.ExecOptions` (part_007 lines 95-101). -/
structure ExecOptions where
  ns : String
  instanceID : String
  containerName : String
  command : List String
  tty : Bool
deriving DecidableEq, Repr

/-- Outcomes of the cluster-side calls made by `execRepo.StreamExec`:
the pod list request, the names it returns, the SPDY executor creation,
the result of `StreamWithContext` (`none` = nil error), and the Output
frames the two output readers drain from stdout/stderr while the call
runs. -/
structure ExecEnv where
  podListError : Option String
  pods : List String
  spdyError : Option String
  streamResult : Option String
  dataFrames : List ExecOutput
deriving DecidableEq, Repr

/-- `execRepo.StreamExec` (part_005 lines 34-126): list pods by label
(limit 1) and fail when the list errors or is empty; create the SPDY
executor and fail when that errors; run the exec call; afterwards report
a non-nil error as an Error frame, then send exactly one Exit frame with
code 0 on nil and 1 on any error, and return the error.  The returned
list is the sequence of frames sent to the output channel. -/
def streamExec (env : ExecEnv) (opts : ExecOptions) :
    Except Err Unit × List ExecOutput :=
  match env.podListError with
  | some e => (Except.error (Err.s ("failed to list pods: " ++ e)), [])
  | none =>
    if env.pods.isEmpty then
      (Except.error (Err.s ("pod not found for instance " ++ opts.instanceID)), [])
    else
      match env.spdyError with
      | some e => (Except.error (Err.s e), [])
      | none =>
        match env.streamResult with
        | some msg =>
          (Except.error (Err.s msg),
            env.dataFrames ++ [execErrorFrame msg, execExitFrame 1])
        | none => (Except.ok (), env.dataFrames ++ [execExitFrame 0])

/-- `v1.Resource` as assembled by `ListResources` before masking
(service/resource.go lines 621-628); the timestamps are pointer fields
whose zero value is nil. -/
structure PbResource where
  instanceId : Int
  name : String
  userId : String
  typ : String
  createdAt : Option Int
  updatedAt : Option Int
deriving DecidableEq, Repr

/-- The zero `v1.Resource` (`out := &v1.Resource{}`). -/
def zeroPbResource : PbResource :=
  { instanceId := 0, name := "", userId := "", typ := "",
    createdAt := none, updatedAt := none }

/-- The loop body of `applyResourceFieldMask`
(service/resource.go lines 650-667): copy the addressed field, failing on
the first path outside the accepted set. -/
def applyMaskPaths (i : PbResource) (out : PbResource) :
    List String → Except Err PbResource
  | [] => Except.ok out
  | p :: rest =>
    if p == "instance_id" || p == "instanceId" then
      applyMaskPaths i { out with instanceId := i.instanceId } rest
    else if p == "name" then
      applyMaskPaths i { out with name := i.name } rest
    else if p == "user_id" || p == "userId" then
      applyMaskPaths i { out with userId := i.userId } rest
    else if p == "type" then
      applyMaskPaths i { out with typ := i.typ } rest
    else if p == "created_at" || p == "createdAt" then
      applyMaskPaths i { out with createdAt := i.createdAt } rest
    else if p == "updated_at" || p == "updatedAt" then
      applyMaskPaths i { out with updatedAt := i.updatedAt } rest
    else
      Except.error (Err.k 400 "INVALID_FIELD_MASK" ("unknown field mask path: " ++ p))

/-- `applyResourceFieldMask` (service/resource.go lines 641-669): an
empty mask returns the input unchanged; otherwise fields are copied into
a zero resource path by path. -/
def applyResourceFieldMask (i : PbResource) (paths : List String) :
    Except Err PbResource :=
  if paths.isEmpty then Except.ok i
  else applyMaskPaths i zeroPbResource paths

/-! ## Helper lemmas and concrete fixtures -/

/-- A list with no match under `p` filters to nothing. -/
theorem filter_nil_of_any_false {α} {p : α → Bool} {l : List α} (h : l.any p = false) :
    l.filter p = [] :=
  List.filter_eq_nil_iff.mpr (List.any_eq_false.mp h)

/-- A list with no match under `p` finds nothing. -/
theorem find?_none_of_any_false {α} {p : α → Bool} {l : List α} (h : l.any p = false) :
    l.find? p = none :=
  List.find?_eq_none.mpr (List.any_eq_false.mp h)

/-- The empty system state. -/
def stEmpty : SysState :=
  { instances := [], specs := [], audits := [], bindings := [], namespaces := [],
    deployments := [], services := [], ingresses := [], tcpServices := [],
    udpServices := [], lbPorts := [], nextAvailablePort := 30000,
    tcpUDPPortRangeEnd := 32767 }

/-- A state holding one instance row (id 1, tenant `tenantA`). -/
def stOne : SysState :=
  { stEmpty with
    instances := [{ instanceID := 1, userID := "tenantA", name := "x",
                    status := "RUNNING" }] }

/-- An environment in which every external request succeeds. -/
def envOK : Env :=
  { bindingCreateFails := false, cmPatchFails := false, lbPatchFails := false,
    lbIP := some "1.2.3.4" }

/-- The event spec of Scenario A. -/
def specA : InstanceSpecB :=
  { instanceID := 1, userID := "tenantA", name := "x", cpu := 2, memory := 1024,
    gpu := 0, image := "alpine:3", configJSON := "" }

/-! ## C7 — idempotent open -/

/-- Claim C7: an open request on an `(instance_id, port)` that already has an
enabled binding returns that binding's `access_url` unchanged, performs
no cluster mutation and no store write. -/
theorem c7_idempotent_open (env : Env) (st : SysState) (instanceID : Int) (port : Nat)
    (protocol ingressDomain : String) (r : Resource) (b : NetworkBinding)
    (hres : getResource st instanceID = some r)
    (hbind : getNetworkBinding st instanceID port = some b)
    (henabled : b.enabled = true) :
    ucSetInstancePort env st instanceID port protocol true ingressDomain =
      (Except.ok b.accessURL, st, []) := by
  simp [ucSetInstancePort, openPort, hres, hbind, henabled]

/-- The enabled HTTP binding used by the C7 witness. -/
def bindW7 : NetworkBinding :=
  { instanceID := 1, port := 8080, serviceName := "instance-1-8080",
    servicePort := 8080, externalPort := none, ingressName := some "ingress-1-8080",
    protocol := "HTTP", accessURL := "http://apps.example.com/tenantA/1/8080",
    enabled := true }

/-- The C7 witness state: one instance row and one enabled binding. -/
def stW7 : SysState := { stOne with bindings := [bindW7] }

/-- Witness for C7 at a concrete state. -/
theorem c7_idempotent_open_witness :
    ucSetInstancePort envOK stW7 1 8080 "HTTP" true "apps.example.com" =
      (Except.ok "http://apps.example.com/tenantA/1/8080", stW7, []) :=
  c7_idempotent_open envOK stW7 1 8080 "HTTP" "apps.example.com"
    { instanceID := 1, name := "x", userID := "tenantA", typ := "RUNNING" }
    bindW7 (by decide) (by decide) (by decide)

/-! ## C8 — workload resource requests -/

/-- Claim C8: the workload's container requests `cpu × 1000` millicores and
`memory × 1,048,576` bytes, with zero cpu replaced by 1000 millicores and
zero memory by 536,870,912 bytes; a non-zero GPU catalog entry adds a GPU
request of one unit and an `accelerator` node selector. -/
theorem c8_workload_resources (spec : InstanceSpecB) :
    ((makeDeployment spec).resources.cpuMilli =
      if spec.cpu = 0 then (1000 : Int) else (spec.cpu : Int) * 1000) ∧
    ((makeDeployment spec).resources.memBytes =
      if spec.memory = 0 then (536870912 : Int) else (spec.memory : Int) * 1048576) ∧
    (∀ n nm, spec.gpu ≠ 0 → gpuTypeMap spec.gpu = some (n, nm) →
      (makeDeployment spec).resources.gpu = some 1 ∧
      (makeDeployment spec).nodeSelector = some ("accelerator", nm)) := by
  refine ⟨?_, ?_, ?_⟩
  · unfold makeDeployment
    simp only [Int.ofNat_eq_coe]
    rcases Nat.eq_zero_or_pos spec.cpu with h | h
    · simp [h]
    · have h1 : ¬ ((spec.cpu : Int) * 1000 ≤ 0) := by omega
      simp only [h1, if_false, if_neg (Nat.pos_iff_ne_zero.mp h)]
  · unfold makeDeployment
    simp only [Int.ofNat_eq_coe]
    rcases Nat.eq_zero_or_pos spec.memory with h | h
    · simp [h]
    · have h1 : ¬ ((spec.memory : Int) * 1024 * 1024 ≤ 0) := by omega
      simp only [h1, if_false, if_neg (Nat.pos_iff_ne_zero.mp h)]
      omega
  · intro n nm hne hmap
    have hg : 0 < spec.gpu := Nat.pos_iff_ne_zero.mpr hne
    match hsg : spec.gpu, hg with
    | 1, _ | 2, _ | 3, _ | 4, _ | 5, _ | 6, _ =>
      rw [hsg] at hmap
      simp only [gpuTypeMap] at hmap
      injection hmap with h
      injection h with h1 h2
      subst h1; subst h2
      simp [makeDeployment, hsg, gpuTypeMap]
    | (k+7), _ =>
      rw [hsg] at hmap
      simp only [gpuTypeMap] at hmap
      exact Option.noConfusion hmap

/-- Witness for C8 at a concrete spec (zero cpu and memory, GPU catalog
entry 4 = Tesla T4). -/
theorem c8_workload_resources_witness :
    ((makeDeployment { specA with cpu := 0, memory := 0, gpu := 4 }).resources.cpuMilli =
      if (0 : Nat) = 0 then (1000 : Int) else ((0 : Nat) : Int) * 1000) ∧
    ((makeDeployment { specA with cpu := 0, memory := 0, gpu := 4 }).resources.memBytes =
      if (0 : Nat) = 0 then (536870912 : Int) else ((0 : Nat) : Int) * 1048576) ∧
    ((makeDeployment { specA with cpu := 0, memory := 0, gpu := 4 }).resources.gpu =
        some 1 ∧
      (makeDeployment { specA with cpu := 0, memory := 0, gpu := 4 }).nodeSelector =
        some ("accelerator", "nvidia-tesla-t4")) := by
  have h := c8_workload_resources { specA with cpu := 0, memory := 0, gpu := 4 }
  exact ⟨h.1, h.2.1, h.2.2 1 "nvidia-tesla-t4" (by decide) (by decide)⟩

/-! ## C10 — the gpu column is never persisted -/

/-- Claim C10: the store's `CreateInstance` leaves the `gpu` column null
whatever the event's gpu field, so `ListResourceSpecs` afterwards reports
`gpu = 0` for the instance. -/
theorem c10_gpu_column_null (st : SysState) (spec : InstanceSpecB)
    (h1 : st.instances.any (fun r => r.instanceID == spec.instanceID) = false)
    (h2 : st.specs.any (fun r => r.instanceID == spec.instanceID) = false) :
    (resourceRepoCreateInstance st spec).1 = Except.ok () ∧
    ((resourceRepoCreateInstance st spec).2.1.specs.filter
        (fun r => r.instanceID == spec.instanceID)) =
      [{ instanceID := spec.instanceID, cpu := spec.cpu, memory := spec.memory,
         gpu := none, image := spec.image, configJSON := spec.configJSON }] ∧
    resourceRepoListResourceSpecs (resourceRepoCreateInstance st spec).2.1
        [spec.instanceID] =
      [(spec.instanceID,
        { instanceID := spec.instanceID, userID := "", name := "",
          cpu := spec.cpu, memory := spec.memory, gpu := 0,
          image := spec.image, configJSON := spec.configJSON })] := by
  have hs : st.specs.filter (fun r => r.instanceID == spec.instanceID) = [] :=
    filter_nil_of_any_false h2
  have hs2 : st.specs.filter (fun r => [spec.instanceID].contains r.instanceID) = [] := by
    refine List.filter_eq_nil_iff.mpr ?_
    intro a ha
    have := List.any_eq_false.mp h2 a ha
    simp only [List.contains_cons, List.contains_nil, Bool.or_false]
    simp only [beq_iff_eq] at this ⊢
    exact fun hEq => this hEq
  refine ⟨?_, ?_, ?_⟩
  · simp [resourceRepoCreateInstance, h1, h2]
  · simp [resourceRepoCreateInstance, h1, h2, hs]
  · simp [resourceRepoCreateInstance, resourceRepoListResourceSpecs, h1, h2, hs2]
    intro a ha
    have := List.any_eq_false.mp h2 a ha
    simpa using this

/-- Witness for C10 at the empty store and a GPU-requesting spec. -/
theorem c10_gpu_column_null_witness :
    (resourceRepoCreateInstance stEmpty { specA with gpu := 3 }).1 = Except.ok () ∧
    ((resourceRepoCreateInstance stEmpty { specA with gpu := 3 }).2.1.specs.filter
        (fun r => r.instanceID == (1 : Int))) =
      [{ instanceID := 1, cpu := 2, memory := 1024, gpu := none,
         image := "alpine:3", configJSON := "" }] ∧
    resourceRepoListResourceSpecs
        (resourceRepoCreateInstance stEmpty { specA with gpu := 3 }).2.1 [(1 : Int)] =
      [((1 : Int),
        { instanceID := 1, userID := "", name := "", cpu := 2, memory := 1024,
          gpu := 0, image := "alpine:3", configJSON := "" })] :=
  c10_gpu_column_null stEmpty { specA with gpu := 3 } (by decide) (by decide)

/-! ## C2 — invalid events are requeued, not dropped -/

/-- Counterexample for C2: an `INSTANCE_CREATED` event with `instance_id = 0`
fails with `INVALID_ARGUMENT`, and the consumer loop negative-acknowledges
it WITH requeue — not the drop the claim states. -/
theorem c2_counterexample :
    consumeMqMessage stEmpty
        { eventType := "INSTANCE_CREATED", instanceId := 0, userId := "u",
          name := "n", spec := none } =
      (Except.error (Err.k 400 "INVALID_ARGUMENT" "invalid mq event"), stEmpty, []) ∧
    processMessageBody (HandlerOutcome.returned
        (consumeMqMessage stEmpty
          { eventType := "INSTANCE_CREATED", instanceId := 0, userId := "u",
            name := "n", spec := none }).1) = AckAction.rejectRequeue ∧
    AckAction.rejectRequeue ≠ AckAction.rejectDrop := by
  refine ⟨rfl, rfl, by decide⟩

/-- Claim C2 (amended): an event with `instance_id = 0`, or an
`INSTANCE_CREATED` event without a spec, fails with `INVALID_ARGUMENT`
and the consumer loop negative-acknowledges the delivery WITH requeue
(only a recovered panic is dropped); the store is untouched. -/
theorem c2_invalid_event_requeued :
    (∀ st (e : MqEvent), e.instanceId = 0 →
      consumeMqMessage st e =
        (Except.error (Err.k 400 "INVALID_ARGUMENT" "invalid mq event"), st, []) ∧
      processMessageBody (HandlerOutcome.returned (consumeMqMessage st e).1) =
        AckAction.rejectRequeue) ∧
    (∀ st (e : MqEvent), e.instanceId ≠ 0 → e.eventType = "INSTANCE_CREATED" →
      e.spec = none →
      consumeMqMessage st e =
        (Except.error
          (Err.k 400 "INVALID_ARGUMENT" "spec is required for INSTANCE_CREATED event"),
          st, []) ∧
      processMessageBody (HandlerOutcome.returned (consumeMqMessage st e).1) =
        AckAction.rejectRequeue) ∧
    (∀ h : HandlerOutcome, processMessageBody h = AckAction.rejectDrop ↔
      h = HandlerOutcome.panicked) := by
  refine ⟨?_, ?_, ?_⟩
  · intro st e h
    have h0 : consumeMqMessage st e =
        (Except.error (Err.k 400 "INVALID_ARGUMENT" "invalid mq event"), st, []) := by
      simp [consumeMqMessage, h]
    exact ⟨h0, by rw [h0]; rfl⟩
  · intro st e h he hs
    have h0 : consumeMqMessage st e =
        (Except.error
          (Err.k 400 "INVALID_ARGUMENT" "spec is required for INSTANCE_CREATED event"),
          st, []) := by
      simp [consumeMqMessage, h, he, hs]
    exact ⟨h0, by rw [h0]; rfl⟩
  · intro h
    match h with
    | .panicked => simp [processMessageBody]
    | .returned (Except.ok _) => simp [processMessageBody]
    | .returned (Except.error _) => simp [processMessageBody]

/-- Witness for C2's amended theorem at concrete deliveries. -/
theorem c2_invalid_event_requeued_witness :
    (consumeMqMessage stEmpty
        { eventType := "INSTANCE_CREATED", instanceId := 5, userId := "u",
          name := "n", spec := none } =
      (Except.error
        (Err.k 400 "INVALID_ARGUMENT" "spec is required for INSTANCE_CREATED event"),
        stEmpty, []) ∧
    processMessageBody (HandlerOutcome.returned
        (consumeMqMessage stEmpty
          { eventType := "INSTANCE_CREATED", instanceId := 5, userId := "u",
            name := "n", spec := none }).1) = AckAction.rejectRequeue) :=
  c2_invalid_event_requeued.2.1 stEmpty
    { eventType := "INSTANCE_CREATED", instanceId := 5, userId := "u",
      name := "n", spec := none } (by decide) (by decide) (by decide)

/-! ## C3 — exit frames of the exec bridge -/

/-- The exec options used in the C3 statements. -/
def optsC3 : ExecOptions :=
  { ns := "tenantA", instanceID := "1", containerName := "1",
    command := ["/bin/sh"], tty := false }

/-- Counterexample for C3: when pod discovery finds no pod, `StreamExec`
returns before the completion flow and the session emits NO frame at all
— in particular not exactly one Exit frame. -/
theorem c3_counterexample :
    (streamExec
        { podListError := none, pods := [], spdyError := none,
          streamResult := none, dataFrames := [] } optsC3).2 = [] ∧
    ((streamExec
        { podListError := none, pods := [], spdyError := none,
          streamResult := none, dataFrames := [] } optsC3).2.filter
      (fun f => f.typ == ExecOutputType.exit)).length ≠ 1 := by
  refine ⟨rfl, by decide⟩

/-- Claim C3 (amended): once the exec call is actually started (pod list ok,
a pod found, executor created), the frame sequence ends in exactly one
Exit frame, with code 0 and an ok return when the cluster-side call
returns nil, and code 1 preceded by exactly one Error frame when it
returns an error; on the earlier failures (list error, no pod, executor
creation failure) no frame is emitted at all. -/
theorem c3_exit_frame_shape (env : ExecEnv) (opts : ExecOptions)
    (hlist : env.podListError = none) (hpods : env.pods.isEmpty = false)
    (hspdy : env.spdyError = none)
    (hdata : ∀ f ∈ env.dataFrames, f.typ = ExecOutputType.data) :
    ((env.streamResult = none →
        streamExec env opts = (Except.ok (), env.dataFrames ++ [execExitFrame 0])) ∧
      (∀ msg, env.streamResult = some msg →
        streamExec env opts =
          (Except.error (Err.s msg),
            env.dataFrames ++ [execErrorFrame msg, execExitFrame 1]))) ∧
    ((streamExec env opts).2.filter
        (fun f => f.typ == ExecOutputType.exit)).length = 1 ∧
    (streamExec env opts).2.getLast? =
      some (execExitFrame (if env.streamResult = none then 0 else 1)) ∧
    ((streamExec env opts).2.filter
        (fun f => f.typ == ExecOutputType.errorFrame)).length =
      (if env.streamResult = none then 0 else 1) := by
  have hdfilterExit :
      env.dataFrames.filter (fun f => f.typ == ExecOutputType.exit) = [] := by
    refine List.filter_eq_nil_iff.mpr ?_
    intro f hf
    simp [hdata f hf]
  have hdfilterErr :
      env.dataFrames.filter (fun f => f.typ == ExecOutputType.errorFrame) = [] := by
    refine List.filter_eq_nil_iff.mpr ?_
    intro f hf
    simp [hdata f hf]
  rcases hsr : env.streamResult with _ | msg
  · have hrun : streamExec env opts = (Except.ok (), env.dataFrames ++ [execExitFrame 0]) := by
      simp [streamExec, hlist, hpods, hspdy, hsr]
    refine ⟨⟨fun _ => hrun, fun m hm => Option.noConfusion hm⟩, ?_, ?_, ?_⟩
    · rw [hrun]
      simp [hdfilterExit, execExitFrame, ExecOutputType.exit]
    · rw [hrun]
      simp [hsr, List.getLast?_concat]
    · rw [hrun]
      simp [hsr, hdfilterErr, execExitFrame]
  · have hrun : streamExec env opts =
        (Except.error (Err.s msg),
          env.dataFrames ++ [execErrorFrame msg, execExitFrame 1]) := by
      simp [streamExec, hlist, hpods, hspdy, hsr]
    refine ⟨⟨fun hn => Option.noConfusion hn,
      fun m hm => by injection hm with h2; subst h2; exact hrun⟩, ?_, ?_, ?_⟩
    · rw [hrun]
      simp [hdfilterExit, execExitFrame, execErrorFrame]
    · rw [hrun]
      have : env.dataFrames ++ [execErrorFrame msg, execExitFrame 1] =
          (env.dataFrames ++ [execErrorFrame msg]) ++ [execExitFrame 1] := by
        simp
      rw [this]
      simp [hsr, List.getLast?_concat]
    · rw [hrun]
      simp [hsr, hdfilterErr, execErrorFrame, execExitFrame]

/-- Witness for C3's amended theorem at a concrete session. -/
theorem c3_exit_frame_shape_witness :
    streamExec
        { podListError := none, pods := ["pod-1"], spdyError := none,
          streamResult := some "command terminated",
          dataFrames := [execDataFrame "stdout" "hello"] } optsC3 =
      (Except.error (Err.s "command terminated"),
        [execDataFrame "stdout" "hello", execErrorFrame "command terminated",
          execExitFrame 1]) :=
  ((c3_exit_frame_shape
    { podListError := none, pods := ["pod-1"], spdyError := none,
      streamResult := some "command terminated",
      dataFrames := [execDataFrame "stdout" "hello"] } optsC3
    rfl rfl rfl (by decide)).1.2) "command terminated" rfl

/-! ## C9 — field mask -/

/-- The paths `applyResourceFieldMask` accepts: the six documented
snake_case paths plus the camelCase aliases of four of them. -/
def acceptedMaskPath (p : String) : Bool :=
  p == "instance_id" || p == "instanceId" || p == "name" || p == "user_id" ||
  p == "userId" || p == "type" || p == "created_at" || p == "createdAt" ||
  p == "updated_at" || p == "updatedAt"

/-- Counterexample for C9: the path `"instanceId"` is not one of the six valid paths
the claim names, yet the mask succeeds instead of failing with
`INVALID_FIELD_MASK`. -/
theorem c9_counterexample :
    "instanceId" ∉ ["instance_id", "name", "user_id", "type", "created_at",
      "updated_at"] ∧
    applyResourceFieldMask
        { instanceId := 7, name := "n", userId := "u", typ := "t",
          createdAt := some 5, updatedAt := some 6 } ["instanceId"] =
      Except.ok { zeroPbResource with instanceId := 7 } := by
  refine ⟨by decide, rfl⟩

/-- Running the mask loop over accepted paths copies exactly the
addressed fields from `i` into the accumulator. -/
theorem applyMaskPaths_accepted (i : PbResource) (paths : List String)
    (h : ∀ p ∈ paths, acceptedMaskPath p = true) (out : PbResource) :
    applyMaskPaths i out paths = Except.ok
      { instanceId := if paths.contains "instance_id" || paths.contains "instanceId"
          then i.instanceId else out.instanceId,
        name := if paths.contains "name" then i.name else out.name,
        userId := if paths.contains "user_id" || paths.contains "userId"
          then i.userId else out.userId,
        typ := if paths.contains "type" then i.typ else out.typ,
        createdAt := if paths.contains "created_at" || paths.contains "createdAt"
          then i.createdAt else out.createdAt,
        updatedAt := if paths.contains "updated_at" || paths.contains "updatedAt"
          then i.updatedAt else out.updatedAt } := by
  induction paths generalizing out with
  | nil => simp [applyMaskPaths]
  | cons p rest ih =>
    have hp := h p (List.mem_cons_self p rest)
    have hrest : ∀ q ∈ rest, acceptedMaskPath q = true :=
      fun q hq => h q (List.mem_cons_of_mem p hq)
    simp only [acceptedMaskPath, Bool.or_eq_true, beq_iff_eq] at hp
    rcases hp with ((((((((h1|h1)|h1)|h1)|h1)|h1)|h1)|h1)|h1)|h1
    all_goals subst h1
    all_goals simp [applyMaskPaths, ih hrest, List.contains_cons]

/-- The mask loop fails with `INVALID_FIELD_MASK` as soon as the path
list holds a path outside the accepted set. -/
theorem applyMaskPaths_invalid (i : PbResource) (paths : List String)
    (h : ∃ p ∈ paths, acceptedMaskPath p = false) (out : PbResource) :
    ∃ m, applyMaskPaths i out paths =
      Except.error (Err.k 400 "INVALID_FIELD_MASK" m) := by
  induction paths generalizing out with
  | nil =>
    rcases h with ⟨p, hp, _⟩
    cases hp
  | cons p rest ih =>
    by_cases hacc : acceptedMaskPath p = true
    · have hrest : ∃ q ∈ rest, acceptedMaskPath q = false := by
        rcases h with ⟨q, hq, hqf⟩
        rcases List.mem_cons.mp hq with rfl | hq2
        · rw [hacc] at hqf
          cases hqf
        · exact ⟨q, hq2, hqf⟩
      simp only [acceptedMaskPath, Bool.or_eq_true, beq_iff_eq] at hacc
      rcases hacc with ((((((((h1|h1)|h1)|h1)|h1)|h1)|h1)|h1)|h1)|h1
      all_goals subst h1
      all_goals simpa [applyMaskPaths] using ih hrest _
    · have hfalse : acceptedMaskPath p = false := by
        simpa using hacc
      simp only [acceptedMaskPath, Bool.or_eq_false_iff] at hfalse
      obtain ⟨⟨⟨⟨⟨⟨⟨⟨⟨e1, e2⟩, e3⟩, e4⟩, e5⟩, e6⟩, e7⟩, e8⟩, e9⟩, e10⟩ := hfalse
      refine ⟨"unknown field mask path: " ++ p, ?_⟩
      simp [applyMaskPaths, e1, e2, e3, e4, e5, e6, e7, e8, e9, e10]

/-- Claim C9 (amended): the accepted mask paths are the six documented ones
plus the camelCase aliases `instanceId`, `userId`, `createdAt`,
`updatedAt`.  A non-empty mask of accepted paths succeeds, the listed
fields are copied from the resource and every unlisted field keeps its
zero value; a mask holding any path outside the accepted set fails with
`INVALID_FIELD_MASK`. -/
theorem c9_field_mask_shape (i : PbResource) (paths : List String) :
    (paths ≠ [] → (∀ p ∈ paths, acceptedMaskPath p = true) →
      applyResourceFieldMask i paths = Except.ok
        { instanceId := if paths.contains "instance_id" || paths.contains "instanceId"
            then i.instanceId else 0,
          name := if paths.contains "name" then i.name else "",
          userId := if paths.contains "user_id" || paths.contains "userId"
            then i.userId else "",
          typ := if paths.contains "type" then i.typ else "",
          createdAt := if paths.contains "created_at" || paths.contains "createdAt"
            then i.createdAt else none,
          updatedAt := if paths.contains "updated_at" || paths.contains "updatedAt"
            then i.updatedAt else none }) ∧
    ((∃ p ∈ paths, acceptedMaskPath p = false) →
      ∃ m, applyResourceFieldMask i paths =
        Except.error (Err.k 400 "INVALID_FIELD_MASK" m)) := by
  constructor
  · intro hne hall
    have hnonempty : paths.isEmpty = false := by
      cases paths with
      | nil => exact absurd rfl hne
      | cons a l => rfl
    rw [applyResourceFieldMask, hnonempty]
    simp only [Bool.false_eq_true, if_false]
    exact applyMaskPaths_accepted i paths hall zeroPbResource
  · intro h
    have hnonempty : paths.isEmpty = false := by
      rcases h with ⟨p, hp, _⟩
      cases paths with
      | nil => cases hp
      | cons a l => rfl
    rw [applyResourceFieldMask, hnonempty]
    simp only [Bool.false_eq_true, if_false]
    exact applyMaskPaths_invalid i paths h zeroPbResource

/-- Witness for C9's amended theorem at a concrete resource and masks. -/
theorem c9_field_mask_shape_witness :
    applyResourceFieldMask
        { instanceId := 7, name := "n", userId := "u", typ := "t",
          createdAt := some 5, updatedAt := some 6 } ["name", "user_id"] =
      Except.ok
        { instanceId := 0, name := "n", userId := "u", typ := "",
          createdAt := none, updatedAt := none } ∧
    ∃ m, applyResourceFieldMask
        { instanceId := 7, name := "n", userId := "u", typ := "t",
          createdAt := some 5, updatedAt := some 6 } ["bogus"] =
      Except.error (Err.k 400 "INVALID_FIELD_MASK" m) := by
  constructor
  · have h := (c9_field_mask_shape
      { instanceId := 7, name := "n", userId := "u", typ := "t",
        createdAt := some 5, updatedAt := some 6 } ["name", "user_id"]).1
      (by decide) (by decide)
    simpa using h
  · exact (c9_field_mask_shape
      { instanceId := 7, name := "n", userId := "u", typ := "t",
        createdAt := some 5, updatedAt := some 6 } ["bogus"]).2
      ⟨"bogus", by decide, by decide⟩

/-! ## C1 — idempotent instance creation -/

/-- `ensureNamespace` only touches the namespace list. -/
@[simp] theorem ensureNamespaceState_instances (st : SysState) (ns : String) :
    (ensureNamespaceState st ns).instances = st.instances := by
  unfold ensureNamespaceState
  split <;> rfl

/-- `ensureNamespace` only touches the namespace list. -/
@[simp] theorem ensureNamespaceState_specs (st : SysState) (ns : String) :
    (ensureNamespaceState st ns).specs = st.specs := by
  unfold ensureNamespaceState
  split <;> rfl

/-- `ensureNamespace` only touches the namespace list. -/
@[simp] theorem ensureNamespaceState_audits (st : SysState) (ns : String) :
    (ensureNamespaceState st ns).audits = st.audits := by
  unfold ensureNamespaceState
  split <;> rfl

/-- `ensureNamespace` only touches the namespace list. -/
@[simp] theorem ensureNamespaceState_deployments (st : SysState) (ns : String) :
    (ensureNamespaceState st ns).deployments = st.deployments := by
  unfold ensureNamespaceState
  split <;> rfl

/-- The workload is created in the tenant namespace. -/
@[simp] theorem makeDeployment_ns (spec : InstanceSpecB) :
    (makeDeployment spec).ns = spec.userID := rfl

/-- The workload carries the stringified instance id as its name. -/
@[simp] theorem makeDeployment_name (spec : InstanceSpecB) :
    (makeDeployment spec).name = toString spec.instanceID := rfl

/-- Claim C1: when the instance and spec rows already exist, the reconciler's
`CreateInstance` is an idempotent success that issues no cluster call and
appends no audit record; hence delivering the same `INSTANCE_CREATED`
event twice yields exactly one Instance row, one InstanceSpec row and one
`CREATE` audit record. -/
theorem c1_duplicate_create_idempotent :
    (∀ (st : SysState) (spec : InstanceSpecB),
      st.instances.any (fun r => r.instanceID == spec.instanceID) = true →
      st.specs.any (fun r => r.instanceID == spec.instanceID) = true →
      ucCreateInstance st spec = (Except.ok (), st, [])) ∧
    (∀ (st : SysState) (spec : InstanceSpecB),
      st.instances.any (fun r => r.instanceID == spec.instanceID) = false →
      st.specs.any (fun r => r.instanceID == spec.instanceID) = false →
      st.deployments.any
        (fun d => d.ns == spec.userID && d.name == toString spec.instanceID) = false →
      st.audits.filter
        (fun a => a.instanceID == spec.instanceID && a.logType == "CREATE") = [] →
      instanceRowCount (ucCreateInstance (ucCreateInstance st spec).2.1 spec).2.1
          spec.instanceID = 1 ∧
      specRowCount (ucCreateInstance (ucCreateInstance st spec).2.1 spec).2.1
          spec.instanceID = 1 ∧
      createAuditCount (ucCreateInstance (ucCreateInstance st spec).2.1 spec).2.1
          spec.instanceID = 1) := by
  constructor
  · intro st spec hI hS
    simp [ucCreateInstance, resourceRepoCreateInstance, hI]
  · intro st spec hI hS hD hA
    have hIf : st.instances.filter (fun r => r.instanceID == spec.instanceID) = [] :=
      filter_nil_of_any_false hI
    have hSf : st.specs.filter (fun r => r.instanceID == spec.instanceID) = [] :=
      filter_nil_of_any_false hS
    simp only [ucCreateInstance, resourceRepoCreateInstance, k8sRepoCreateInstance,
      auditRepoCreateAudit, hI, hS, Bool.false_eq_true, if_false,
      ensureNamespaceState_instances, ensureNamespaceState_specs,
      ensureNamespaceState_audits, ensureNamespaceState_deployments,
      makeDeployment_ns, makeDeployment_name]
    simp only [List.any_append, hI, hS, hD, Bool.false_or, List.any_cons, List.any_nil,
      Bool.or_false, beq_self_eq_true, Bool.false_eq_true, if_false, if_true]
    simp [instanceRowCount, specRowCount, createAuditCount, List.filter_append,
      hIf, hSf, hA]

/-- The C1 witness state: instance and spec rows for id 1 already
present. -/
def stDup1 : SysState :=
  { stEmpty with
    instances := [{ instanceID := 1, userID := "tenantA", name := "x",
                    status := "CREATING" }],
    specs := [{ instanceID := 1, cpu := 2, memory := 1024, gpu := none,
                image := "alpine:3", configJSON := "" }] }

/-- Witness for C1: the duplicate event is an idempotent no-op, and the
double delivery on a clean state leaves counts of exactly one. -/
theorem c1_duplicate_create_idempotent_witness :
    ucCreateInstance stDup1 specA = (Except.ok (), stDup1, []) ∧
    (instanceRowCount (ucCreateInstance (ucCreateInstance stEmpty specA).2.1 specA).2.1
        1 = 1 ∧
      specRowCount (ucCreateInstance (ucCreateInstance stEmpty specA).2.1 specA).2.1
        1 = 1 ∧
      createAuditCount (ucCreateInstance (ucCreateInstance stEmpty specA).2.1 specA).2.1
        1 = 1) :=
  ⟨c1_duplicate_create_idempotent.1 stDup1 specA (by decide) (by decide),
    c1_duplicate_create_idempotent.2 stEmpty specA (by decide) (by decide) (by decide)
      (by decide)⟩

/-! ## C5 — missing instance and the batch loop -/

/-- Counterexample for C5: with no instance row for id 5, the call still
returns a per-element response whose element carries the port-validation
error — the element WAS validated, and the batch did not fail at instance
resolution before touching it. -/
theorem c5_counterexample :
    getResource stEmpty 5 = none ∧
    svcSetInstancePort envOK stEmpty 5 true
        [{ port := 0, protocol := "HTTP", ingressDomain := "d" }] =
      (Except.ok
        { success := false,
          results := [{ port := 0, success := false, accessURL := "",
                        err := "invalid port number, must be 1-65535" }],
          message := "0/1 ports processed successfully" }, stEmpty, []) :=
  ⟨rfl, rfl⟩

/-- With no instance row, every element of the batch loop is processed
in place: its result fails, the state is unchanged and no operation is
issued. -/
theorem processPortConfigs_missing (env : Env) (st : SysState) (instanceId : Int)
    (openB : Bool) (configs : List PortConfig)
    (hmiss : getResource st instanceId = none) :
    ∃ results, processPortConfigs env st instanceId openB configs = (results, st, []) ∧
      results.length = configs.length ∧ ∀ r ∈ results, r.success = false := by
  induction configs with
  | nil => exact ⟨[], rfl, rfl, by simp⟩
  | cons c rest ih =>
    have hc : ∃ r, processPortConfig env st instanceId openB c = (r, st, []) ∧
        r.success = false := by
      have huc : ∀ proto, ucSetInstancePort env st instanceId c.port proto openB
          c.ingressDomain = (Except.error (Err.s "instance not found"), st, []) := by
        intro proto
        simp [ucSetInstancePort, hmiss]
      unfold processPortConfig
      by_cases h1 : (c.port == 0 || decide (c.port > 65535)) = true
      · rw [if_pos h1]
        refine ⟨_, rfl, ?_⟩
        rfl
      · rw [if_neg h1]
        dsimp only
        by_cases h2 : (!((if (c.protocol == "") = true then "HTTP" else c.protocol) == "TCP"
            || (if (c.protocol == "") = true then "HTTP" else c.protocol) == "UDP"
            || (if (c.protocol == "") = true then "HTTP" else c.protocol) == "HTTP")) = true
        · rw [if_pos h2]
          refine ⟨_, rfl, ?_⟩
          rfl
        · rw [if_neg h2]
          by_cases h3 : ((if (c.protocol == "") = true then "HTTP" else c.protocol) == "HTTP"
              && c.ingressDomain == "") = true
          · rw [if_pos h3]
            refine ⟨_, rfl, ?_⟩
            rfl
          · rw [if_neg h3]
            rw [huc]
            refine ⟨_, rfl, ?_⟩
            rfl
    obtain ⟨r, hr, hrs⟩ := hc
    obtain ⟨results, hres, hlen, hall⟩ := ih
    refine ⟨r :: results, ?_, by simp [hlen], ?_⟩
    · simp only [processPortConfigs, hr, hres]
      rfl
    · intro x hx
      rcases List.mem_cons.mp hx with rfl | hx2
      · exact hrs
      · exact hall x hx2

/-- Claim C5 (amended): when the instance does not resolve, the call still
processes every element — validation failures are reported per element
and validated elements fail with `instance not found` from a per-element
store lookup.  The response carries `success = false` with one failed
result per element (it is not a batch-level error), the state is
unchanged, and no cluster mutation or store write is issued. -/
theorem c5_missing_instance_per_element (env : Env) (st : SysState) (instanceId : Int)
    (openB : Bool) (configs : List PortConfig)
    (hid : instanceId ≠ 0)
    (hmiss : getResource st instanceId = none)
    (hne : configs ≠ []) :
    ∃ results,
      svcSetInstancePort env st instanceId openB configs =
        (Except.ok
          { success := false, results := results,
            message := "0/" ++ toString configs.length ++
              " ports processed successfully" }, st, []) ∧
      results.length = configs.length ∧ ∀ r ∈ results, r.success = false := by
  obtain ⟨results, hres, hlen, hall⟩ :=
    processPortConfigs_missing env st instanceId openB configs hmiss
  have hid2 : (instanceId == 0) = false := by simpa using hid
  have hne2 : configs.isEmpty = false := by
    cases configs with
    | nil => exact absurd rfl hne
    | cons a l => rfl
  have hcount : results.filter (fun r => r.success) = [] :=
    List.filter_eq_nil_iff.mpr (fun r hr => by simp [hall r hr])
  have hlen0 : ((0 : Nat) == configs.length) = false := by
    cases configs with
    | nil => exact absurd rfl hne
    | cons a l => simp
  refine ⟨results, ?_, hlen, hall⟩
  unfold svcSetInstancePort
  rw [hid2, hne2, hres]
  simp only [Bool.false_eq_true, if_false, hcount, List.length_nil, hlen0]
  rfl

/-- Witness for C5's amended theorem at a concrete missing instance. -/
theorem c5_missing_instance_per_element_witness :
    ∃ results,
      svcSetInstancePort envOK stEmpty 5 true
          [{ port := 8080, protocol := "HTTP", ingressDomain := "d" }] =
        (Except.ok
          { success := false, results := results,
            message := "0/" ++
              toString
                ([({ port := 8080, protocol := "HTTP", ingressDomain := "d" } :
                  PortConfig)]).length ++
              " ports processed successfully" }, stEmpty, []) ∧
      results.length =
        ([({ port := 8080, protocol := "HTTP", ingressDomain := "d" } :
          PortConfig)]).length ∧
      ∀ r ∈ results, r.success = false :=
  c5_missing_instance_per_element envOK stEmpty 5 true
    [{ port := 8080, protocol := "HTTP", ingressDomain := "d" }]
    (by decide) (by decide) (by decide)

/-! ## C4 — rollback order of a failed TCP/UDP open -/

/-- Counterexample for C4: a TCP open whose binding persist fails issues its
compensations as service deletion first, then the configuration-map
entry, then the load-balancer port — not the claimed load-balancer-first
order. -/
theorem c4_counterexample :
    (openPort { envOK with bindingCreateFails := true } stOne 1 "1" "tenantA" 3306
        "TCP" "").2.2 =
      [Op.createService "tenantA" "instance-1-3306",
       Op.addConfigMapEntry "TCP" 30000,
       Op.addLBPort "TCP" 30000,
       Op.deleteService "tenantA" "instance-1-3306",
       Op.removeConfigMapEntry "TCP" 30000,
       Op.removeLBPort "TCP" 30000] ∧
    ([Op.createService "tenantA" "instance-1-3306",
       Op.addConfigMapEntry "TCP" 30000,
       Op.addLBPort "TCP" 30000,
       Op.deleteService "tenantA" "instance-1-3306",
       Op.removeConfigMapEntry "TCP" 30000,
       Op.removeLBPort "TCP" 30000] : List Op) ≠
      [Op.createService "tenantA" "instance-1-3306",
       Op.addConfigMapEntry "TCP" 30000,
       Op.addLBPort "TCP" 30000,
       Op.removeLBPort "TCP" 30000,
       Op.removeConfigMapEntry "TCP" 30000,
       Op.deleteService "tenantA" "instance-1-3306"] :=
  ⟨rfl, by decide⟩

/-- Claim C4 (amended): compensations of a failed TCP/UDP open are issued for
every successful sub-step with not-found errors ignored, but in this
order: when the binding persist fails the service is deleted first, then
the configuration-map entry removed, then the load-balancer port removed;
when the load-balancer patch itself fails the configuration-map entry is
removed (followed by the load-balancer port removal) before the service
is deleted. -/
theorem c4_rollback_order (env : Env) (st : SysState) (instanceID : Int)
    (instanceIDStr ns port protocol ingressDomain) :
    ∀ _hproto : protocol = "TCP" ∨ protocol = "UDP",
    ∀ _hnb : getNetworkBinding st instanceID port = none,
    ∀ _hsvc : st.services.any
        (fun x => x.1 == ns && x.2 == generateServiceName instanceIDStr port) = false,
    ∀ _hcap : st.nextAvailablePort ≤ st.tcpUDPPortRangeEnd,
    ∀ _hpos : st.nextAvailablePort ≠ 0,
    (env.cmPatchFails = false → env.lbPatchFails = false →
      env.bindingCreateFails = true →
      (openPort env st instanceID instanceIDStr ns port protocol ingressDomain).1 =
        Except.error (Err.s "failed to create network binding") ∧
      (openPort env st instanceID instanceIDStr ns port protocol ingressDomain).2.2 =
        [Op.createService ns (generateServiceName instanceIDStr port),
         Op.addConfigMapEntry protocol st.nextAvailablePort,
         Op.addLBPort protocol st.nextAvailablePort,
         Op.deleteService ns (generateServiceName instanceIDStr port),
         Op.removeConfigMapEntry protocol st.nextAvailablePort,
         Op.removeLBPort protocol st.nextAvailablePort]) ∧
    (env.cmPatchFails = false → env.lbPatchFails = true →
      (openPort env st instanceID instanceIDStr ns port protocol ingressDomain).1 =
        Except.error (Err.s "failed to patch ingress-nginx Service") ∧
      (openPort env st instanceID instanceIDStr ns port protocol ingressDomain).2.2 =
        [Op.createService ns (generateServiceName instanceIDStr port),
         Op.addConfigMapEntry protocol st.nextAvailablePort,
         Op.addLBPort protocol st.nextAvailablePort,
         Op.removeConfigMapEntry protocol st.nextAvailablePort,
         Op.removeLBPort protocol st.nextAvailablePort,
         Op.deleteService ns (generateServiceName instanceIDStr port)]) := by
  intro hproto hnb hsvc hcap hpos
  have hcap2 : ¬ (st.nextAvailablePort > st.tcpUDPPortRangeEnd) := Nat.not_lt.mpr hcap
  have h0 : (st.nextAvailablePort == 0) = false := by simpa using hpos
  constructor
  · intro hcm hlb hbind
    rcases hproto with rfl | rfl <;>
      simp [openPort, openPortProvision, openPortPersist, createServiceForTCPUDP,
        createNetworkBinding, allocateExternalPort, deleteTCPUDPConfigMapEntry,
        k8sDeleteService, setCmEntries, cmEntries, hnb, hsvc, hcap2, h0, hcm, hlb, hbind]
  · intro hcm hlb
    rcases hproto with rfl | rfl <;>
      simp [openPort, openPortProvision, openPortPersist, createServiceForTCPUDP,
        createNetworkBinding, allocateExternalPort, deleteTCPUDPConfigMapEntry,
        k8sDeleteService, setCmEntries, cmEntries, hnb, hsvc, hcap2, h0, hcm, hlb]

/-- Witness for C4's amended theorem at concrete states. -/
theorem c4_rollback_order_witness :
    ((openPort { envOK with bindingCreateFails := true } stOne 1 "1" "tenantA" 3306
        "UDP" "").1 = Except.error (Err.s "failed to create network binding") ∧
      (openPort { envOK with bindingCreateFails := true } stOne 1 "1" "tenantA" 3306
        "UDP" "").2.2 =
        [Op.createService "tenantA" (generateServiceName "1" 3306),
         Op.addConfigMapEntry "UDP" 30000,
         Op.addLBPort "UDP" 30000,
         Op.deleteService "tenantA" (generateServiceName "1" 3306),
         Op.removeConfigMapEntry "UDP" 30000,
         Op.removeLBPort "UDP" 30000]) ∧
    ((openPort { envOK with lbPatchFails := true } stOne 1 "1" "tenantA" 3306
        "UDP" "").1 = Except.error (Err.s "failed to patch ingress-nginx Service") ∧
      (openPort { envOK with lbPatchFails := true } stOne 1 "1" "tenantA" 3306
        "UDP" "").2.2 =
        [Op.createService "tenantA" (generateServiceName "1" 3306),
         Op.addConfigMapEntry "UDP" 30000,
         Op.addLBPort "UDP" 30000,
         Op.removeConfigMapEntry "UDP" 30000,
         Op.removeLBPort "UDP" 30000,
         Op.deleteService "tenantA" (generateServiceName "1" 3306)]) :=
  ⟨(c4_rollback_order { envOK with bindingCreateFails := true } stOne 1 "1" "tenantA"
      3306 "UDP" "" (Or.inr rfl) (by decide) (by decide) (by decide) (by decide)).1
      rfl rfl rfl,
    (c4_rollback_order { envOK with lbPatchFails := true } stOne 1 "1" "tenantA"
      3306 "UDP" "" (Or.inr rfl) (by decide) (by decide) (by decide) (by decide)).2
      rfl rfl⟩

/-! ## C6 — HTTP open/close round trip -/

/-- If no pair in `l` carries the name, none carries the name in a fixed
namespace either. -/
theorem any_pair_false {l : List (String × String)} {ns name : String}
    (h : l.any (fun x => x.2 == name) = false) :
    l.any (fun x => x.1 == ns && x.2 == name) = false := by
  rw [List.any_eq_false] at h ⊢
  intro x hx
  have h2 := h x hx
  simp only [Bool.and_eq_true, beq_iff_eq] at h2 ⊢
  exact fun hc => h2 hc.2

/-- Filtering cannot create a match that was not there. -/
theorem any_filter_false {α} {p q : α → Bool} {l : List α} (h : l.any p = false) :
    (l.filter q).any p = false := by
  rw [List.any_eq_false] at h ⊢
  intro x hx
  exact h x (List.mem_of_mem_filter hx)

/-- After deleting every row keyed by `(instanceID, port)`, the lookup
finds nothing. -/
theorem find?_filter_key_none (l : List NetworkBinding) (instanceID : Int) (port : Nat) :
    ((l.filter (fun b => !(b.instanceID == instanceID) || !(b.port == port))).find?
      (fun b => b.instanceID == instanceID && b.port == port)) = none := by
  rw [List.find?_eq_none]
  intro x hx
  have h2 := (List.mem_filter.mp hx).2
  simp only [Bool.or_eq_true, Bool.not_eq_true'] at h2
  simp only [Bool.and_eq_true]
  rintro ⟨ha, hb⟩
  rcases h2 with h2 | h2
  · rw [h2] at ha
    cases ha
  · rw [h2] at hb
    cases hb

/-- Claim C6: a successful HTTP open followed by a close leaves no service
named `instance-{instance_id}-{port}`, no ingress named
`ingress-{instance_id}-{port}`, and no binding row for
`(instance_id, port)` — the close deletes every object the open
created. -/
theorem c6_http_open_close_roundtrip (env : Env) (st : SysState) (instanceID : Int)
    (port : Nat) (dom : String) (row : InstanceRow)
    (hrow : st.instances.find? (fun x => x.instanceID == instanceID) = some row)
    (hnb : getNetworkBinding st instanceID port = none)
    (hsvc : st.services.any
      (fun x => x.2 == generateServiceName (toString instanceID) port) = false)
    (hing : st.ingresses.any
      (fun x => x.2 == generateIngressName (toString instanceID) port) = false)
    (hbf : env.bindingCreateFails = false) :
    ∃ st1 t1,
      ucSetInstancePort env st instanceID port "HTTP" true dom =
        (Except.ok (generateAccessURL dom row.userID (toString instanceID) port),
          st1, t1) ∧
      ∃ st2 t2,
        ucSetInstancePort env st1 instanceID port "HTTP" false dom =
          (Except.ok "", st2, t2) ∧
        st2.services.any
          (fun x => x.2 == generateServiceName (toString instanceID) port) = false ∧
        st2.ingresses.any
          (fun x => x.2 == generateIngressName (toString instanceID) port) = false ∧
        getNetworkBinding st2 instanceID port = none := by
  have hnbf : st.bindings.find?
      (fun b => b.instanceID == instanceID && b.port == port) = none := by
    simpa [getNetworkBinding] using hnb
  have hsvcP : (row.userID,
      "instance-" ++ toString instanceID ++ "-" ++ toString port) ∉ st.services := by
    intro hmem
    have := List.any_eq_false.mp hsvc _ hmem
    simp [generateServiceName] at this
  have hingP : (row.userID,
      "ingress-" ++ toString instanceID ++ "-" ++ toString port) ∉ st.ingresses := by
    intro hmem
    have := List.any_eq_false.mp hing _ hmem
    simp [generateIngressName] at this
  have hnbP : ¬ ∃ x ∈ st.bindings, x.instanceID = instanceID ∧ x.port = port := by
    rintro ⟨x, hx, h1, h2⟩
    have := List.find?_eq_none.mp hnbf x hx
    simp [h1, h2] at this
  have hopen : ucSetInstancePort env st instanceID port "HTTP" true dom =
      (Except.ok ("http://" ++ dom ++ "/" ++ row.userID ++ "/" ++ toString instanceID ++
          "/" ++ toString port),
        { st with
          services := st.services ++
            [(row.userID, "instance-" ++ toString instanceID ++ "-" ++ toString port)],
          ingresses := st.ingresses ++
            [(row.userID, "ingress-" ++ toString instanceID ++ "-" ++ toString port)],
          bindings := st.bindings ++
            [{ instanceID := instanceID, port := port,
               serviceName := "instance-" ++ toString instanceID ++ "-" ++ toString port,
               servicePort := port, externalPort := none,
               ingressName := some ("ingress-" ++ toString instanceID ++ "-" ++
                 toString port),
               protocol := "HTTP",
               accessURL := "http://" ++ dom ++ "/" ++ row.userID ++ "/" ++
                 toString instanceID ++ "/" ++ toString port,
               enabled := true }],
          audits := st.audits ++
            [{ instanceID := instanceID, logType := "PORT_OPENED",
               message := "Port " ++ toString port ++ " opened with protocol " ++
                 "HTTP" }] },
        [Op.createService row.userID
            ("instance-" ++ toString instanceID ++ "-" ++ toString port),
          Op.createIngress row.userID
            ("ingress-" ++ toString instanceID ++ "-" ++ toString port),
          Op.insertBinding instanceID port,
          Op.appendAudit instanceID "PORT_OPENED"]) := by
    simp [ucSetInstancePort, getResource, hrow, openPort, getNetworkBinding, hnbf,
      openPortProvision, createServiceForHTTP, k8sCreateIngress,
      openPortPersist, createNetworkBinding, hbf, auditRepoCreateAudit,
      generateServiceName, generateIngressName, generateAccessURL, hsvcP, hingP, hnbP]
  have hclose : ucSetInstancePort env
      ((ucSetInstancePort env st instanceID port "HTTP" true dom).2.1)
      instanceID port "HTTP" false dom =
      (Except.ok "",
        { st with
          services := st.services.filter
            (fun x => !(x.1 == row.userID) ||
              !(x.2 == "instance-" ++ toString instanceID ++ "-" ++ toString port)),
          ingresses := st.ingresses.filter
            (fun x => !(x.1 == row.userID) ||
              !(x.2 == "ingress-" ++ toString instanceID ++ "-" ++ toString port)),
          bindings := st.bindings.filter
            (fun b => !(b.instanceID == instanceID) || !(b.port == port)),
          audits := st.audits ++
            [{ instanceID := instanceID, logType := "PORT_OPENED",
               message := "Port " ++ toString port ++ " opened with protocol " ++
                 "HTTP" },
             { instanceID := instanceID, logType := "PORT_CLOSED",
               message := "Port " ++ toString port ++ " closed" }] },
        [Op.deleteService row.userID
            ("instance-" ++ toString instanceID ++ "-" ++ toString port),
          Op.deleteIngress row.userID
            ("ingress-" ++ toString instanceID ++ "-" ++ toString port),
          Op.deleteBinding instanceID port,
          Op.appendAudit instanceID "PORT_CLOSED"]) := by
    rw [hopen]
    simp [ucSetInstancePort, getResource, hrow, closePort, getNetworkBinding,
      List.find?_append, hnbf, k8sDeleteService, k8sDeleteIngress,
      deleteNetworkBinding, auditRepoCreateAudit]
  rw [hopen] at hclose
  refine ⟨_, _, by rw [hopen]; rfl, _, _, hclose, ?_, ?_, ?_⟩
  · exact any_filter_false hsvc
  · exact any_filter_false hing
  · simpa [getNetworkBinding] using
      find?_filter_key_none st.bindings instanceID port

/-- Witness for C6 at a concrete instance and port. -/
theorem c6_http_open_close_roundtrip_witness :
    ∃ st1 t1,
      ucSetInstancePort envOK stOne 1 8080 "HTTP" true "apps.example.com" =
        (Except.ok (generateAccessURL "apps.example.com" "tenantA" (toString (1 : Int))
          8080), st1, t1) ∧
      ∃ st2 t2,
        ucSetInstancePort envOK st1 1 8080 "HTTP" false "apps.example.com" =
          (Except.ok "", st2, t2) ∧
        st2.services.any
          (fun x => x.2 == generateServiceName (toString (1 : Int)) 8080) = false ∧
        st2.ingresses.any
          (fun x => x.2 == generateIngressName (toString (1 : Int)) 8080) = false ∧
        getNetworkBinding st2 1 8080 = none :=
  c6_http_open_close_roundtrip envOK stOne 1 8080 "apps.example.com"
    { instanceID := 1, userID := "tenantA", name := "x", status := "RUNNING" }
    (by decide) (by decide) (by decide) (by decide) (by decide)
